import Mathlib

/-!
Verification development for the recipe nutrition filtering app
(src/09_streamlit_app.py).  The store side is modelled relationally:
each table of the schema is a list of rows, and the SQL query issued by
search_recipes is embedded as a join / filter / sort pipeline over those
lists.  The query TEXT assembled by search_recipes is modelled separately
and faithfully, character for character, because several claims are about
the constructed string itself.
-/

set_option maxRecDepth 16000

namespace RecipeApp

/-- Row of the precomputed view recipe_macro_pct(recipe_id, name, url,
calories, pct_carbs, pct_fat, pct_protein). -/
structure MacroRow where
  recipe_id : Nat
  name : String
  url : String
  calories : ℚ
  pct_carbs : ℚ
  pct_fat : ℚ
  pct_protein : ℚ
deriving DecidableEq, Repr

/-- Row of the recipes table, with the columns the query touches:
recipe_id, category_id (nullable) and rating (nullable). -/
structure RecipeRow where
  recipe_id : Nat
  category_id : Option Nat
  rating : Option ℚ
deriving DecidableEq, Repr

/-- Row of the categories table. -/
structure CategoryRow where
  category_id : Nat
  category_name : String
deriving DecidableEq, Repr

/-- The relational store: the tables and the view that the queries in
09_streamlit_app.py read.  Association tables recipe_allergens and
recipe_diet_labels are pairs (recipe_id, allergen_id / label_id). -/
structure Database where
  recipe_macro_pct : List MacroRow
  recipes : List RecipeRow
  categories : List CategoryRow
  recipe_allergens : List (Nat × Nat)
  recipe_diet_labels : List (Nat × Nat)
deriving DecidableEq, Repr

/-- FilterState: the nine arguments of search_recipes (line 63).  Numeric
values are modelled as rationals; the category argument is None when the
caller selected the All Categories sentinel (line 274), else the chosen
string. -/
structure FilterState where
  cal_min : ℚ
  cal_max : ℚ
  carb_target : ℚ
  fat_target : ℚ
  prot_target : ℚ
  margin : ℚ
  category : Option String
  exclude_allergen_ids : List Nat
  diet_label_ids : List Nat
deriving DecidableEq, Repr

/-- One row of the result set of the main query (SELECT list, lines
98 to 107): recipe_id, name, url, calories, the three macro percentages,
category_name (nullable through the LEFT JOIN) and rating (nullable). -/
structure ResultRow where
  recipe_id : Nat
  name : String
  url : String
  calories : ℚ
  pct_carbs : ℚ
  pct_fat : ℚ
  pct_protein : ℚ
  category_name : Option String
  rating : Option ℚ
deriving DecidableEq, Repr

/-- ASCII lowercase of a string, the model of SQL LOWER and of Python
lower used implicitly by the case insensitive category comparison. -/
def lowerStr (s : String) : String := String.mk (s.data.map Char.toLower)

/-- Python guard of line 81, `if category and category != 'All Categories'`:
the category clause is emitted only for a present, non-empty string that is
not the sentinel.  Returns the effective filter string, none when the
clause is omitted. -/
def categorySelected (cat : Option String) : Option String :=
  match cat with
  | none => none
  | some c => if c ≠ "" ∧ c ≠ "All Categories" then some c else none

/-- Boolean value of the category clause
`AND LOWER(c.category_name) = LOWER(..)` (line 82) on one joined row.
When the clause is omitted it contributes true; a NULL category_name
compares unequal to any string in SQL, hence false. -/
def categoryBool (cat rowCat : Option String) : Bool :=
  match categorySelected cat with
  | none => true
  | some c =>
    match rowCat with
    | none => false
    | some n => lowerStr n == lowerStr c

/-- WHERE clause of the main query (lines 111 to 117) evaluated on one
joined row: the four BETWEEN range conditions, the optional category
clause, the optional allergen NOT EXISTS clause (lines 69 to 77) and the
optional diet label EXISTS clause (lines 86 to 94). -/
def rowMatches (db : Database) (fs : FilterState) (row : ResultRow) : Bool :=
  decide (fs.cal_min ≤ row.calories) && decide (row.calories ≤ fs.cal_max) &&
  decide (fs.carb_target - fs.margin ≤ row.pct_carbs) &&
  decide (row.pct_carbs ≤ fs.carb_target + fs.margin) &&
  decide (fs.fat_target - fs.margin ≤ row.pct_fat) &&
  decide (row.pct_fat ≤ fs.fat_target + fs.margin) &&
  decide (fs.prot_target - fs.margin ≤ row.pct_protein) &&
  decide (row.pct_protein ≤ fs.prot_target + fs.margin) &&
  categoryBool fs.category row.category_name &&
  (if fs.exclude_allergen_ids.isEmpty then true
   else decide (¬ ∃ link ∈ db.recipe_allergens,
     link.1 = row.recipe_id ∧ link.2 ∈ fs.exclude_allergen_ids)) &&
  (if fs.diet_label_ids.isEmpty then true
   else decide (∃ link ∈ db.recipe_diet_labels,
     link.1 = row.recipe_id ∧ link.2 ∈ fs.diet_label_ids))

/-- LEFT JOIN categories c ON c.category_id = r.category_id (line 110):
the category names matching one recipe row, or the single NULL row when
no category matches (in particular when r.category_id is NULL). -/
def categoryMatches (db : Database) (r : RecipeRow) : List (Option String) :=
  match db.categories.filter (fun c => r.category_id == some c.category_id) with
  | [] => [none]
  | cs => cs.map fun c => some c.category_name

/-- FROM recipe_macro_pct v JOIN recipes r ON r.recipe_id = v.recipe_id
LEFT JOIN categories c ON c.category_id = r.category_id (lines 108 to
110), projected through the SELECT list. -/
def joinedRows (db : Database) : List ResultRow :=
  db.recipe_macro_pct.flatMap fun v =>
    (db.recipes.filter fun r => v.recipe_id == r.recipe_id).flatMap fun r =>
      (categoryMatches db r).map fun cname =>
        { recipe_id := v.recipe_id, name := v.name, url := v.url,
          calories := v.calories, pct_carbs := v.pct_carbs,
          pct_fat := v.pct_fat, pct_protein := v.pct_protein,
          category_name := cname, rating := r.rating }

/-- Ordering relation of the ORDER BY v.calories clause (line 118). -/
def calLE (a b : ResultRow) : Prop := a.calories ≤ b.calories

instance : DecidableRel calLE := fun a b =>
  inferInstanceAs (Decidable (a.calories ≤ b.calories))

instance : IsTotal ResultRow calLE := ⟨fun a b => le_total a.calories b.calories⟩

instance : IsTrans ResultRow calLE := ⟨fun _ _ _ h h2 => le_trans h h2⟩

/-- Relational semantics of the main query of search_recipes (lines 97 to
119): join, filter by the WHERE clause, order ascending by calories. -/
def searchRecipes (db : Database) (fs : FilterState) : List ResultRow :=
  List.insertionSort calLE ((joinedRows db).filter (rowMatches db fs))

/-- Membership in the result set is membership in the filtered join. -/
theorem mem_searchRecipes_iff (db : Database) (fs : FilterState) (row : ResultRow) :
    row ∈ searchRecipes db fs ↔ row ∈ joinedRows db ∧ rowMatches db fs row = true := by
  unfold searchRecipes
  rw [(List.perm_insertionSort calLE _).mem_iff, List.mem_filter]

/-- Specification-side matching predicate, the six clause list of section
4.1 of the spec, written as one Prop over a candidate result row. -/
def searchSound (db : Database) (fs : FilterState) (row : ResultRow) : Prop :=
  (fs.cal_min ≤ row.calories ∧ row.calories ≤ fs.cal_max) ∧
  (fs.carb_target - fs.margin ≤ row.pct_carbs ∧ row.pct_carbs ≤ fs.carb_target + fs.margin) ∧
  (fs.fat_target - fs.margin ≤ row.pct_fat ∧ row.pct_fat ≤ fs.fat_target + fs.margin) ∧
  (fs.prot_target - fs.margin ≤ row.pct_protein ∧ row.pct_protein ≤ fs.prot_target + fs.margin) ∧
  (∀ c, categorySelected fs.category = some c →
    ∃ n, row.category_name = some n ∧ lowerStr n = lowerStr c) ∧
  (fs.exclude_allergen_ids ≠ [] →
    ¬ ∃ link ∈ db.recipe_allergens, link.1 = row.recipe_id ∧
      link.2 ∈ fs.exclude_allergen_ids) ∧
  (fs.diet_label_ids ≠ [] →
    ∃ link ∈ db.recipe_diet_labels, link.1 = row.recipe_id ∧
      link.2 ∈ fs.diet_label_ids)

/-- Unfolding of the boolean category clause into its propositional form. -/
theorem categoryBool_iff (cat rowCat : Option String) :
    categoryBool cat rowCat = true ↔
      ∀ c, categorySelected cat = some c →
        ∃ n, rowCat = some n ∧ lowerStr n = lowerStr c := by
  unfold categoryBool
  cases h : categorySelected cat with
  | none => simp [h]
  | some c =>
    cases rowCat with
    | none => simp [h]
    | some n => simp [h, beq_iff_eq]

/-- Unfolding of the guarded boolean allergen NOT EXISTS clause. -/
theorem allergenBool_iff (links : List (Nat × Nat)) (ids : List Nat) (rid : Nat) :
    ((if ids.isEmpty then true
      else decide (¬ ∃ link ∈ links, link.1 = rid ∧ link.2 ∈ ids)) = true) ↔
      (ids ≠ [] → ¬ ∃ link ∈ links, link.1 = rid ∧ link.2 ∈ ids) := by
  cases ids with
  | nil => simp
  | cons a as => simp

/-- Unfolding of the guarded boolean diet label EXISTS clause. -/
theorem dietBool_iff (links : List (Nat × Nat)) (ids : List Nat) (rid : Nat) :
    ((if ids.isEmpty then true
      else decide (∃ link ∈ links, link.1 = rid ∧ link.2 ∈ ids)) = true) ↔
      (ids ≠ [] → ∃ link ∈ links, link.1 = rid ∧ link.2 ∈ ids) := by
  cases ids with
  | nil => simp
  | cons a as => simp

/-- The boolean WHERE clause agrees with the specification predicate. -/
theorem rowMatches_iff (db : Database) (fs : FilterState) (row : ResultRow) :
    rowMatches db fs row = true ↔ searchSound db fs row := by
  unfold rowMatches searchSound
  rw [Bool.and_eq_true, Bool.and_eq_true, Bool.and_eq_true, Bool.and_eq_true,
    Bool.and_eq_true, Bool.and_eq_true, Bool.and_eq_true, Bool.and_eq_true,
    Bool.and_eq_true, Bool.and_eq_true]
  rw [categoryBool_iff, allergenBool_iff, dietBool_iff]
  simp only [decide_eq_true_eq]
  tauto

/-- C1: for every valid FilterState, every recipe row returned by
search_recipes satisfies all matching clauses: calories within the
inclusive calorie bounds; each macro percentage within its inclusive
target plus or minus margin window; if a category other than the
sentinel is selected, the row category name matches it case
insensitively; if any allergen ids are excluded, the recipe has no
association row with an excluded allergen id; and if any diet label ids
are required, the recipe has at least one association row with some
required label id (inclusive OR across the selected labels). -/
theorem searchRecipes_sound (db : Database) (fs : FilterState) (row : ResultRow)
    (h : row ∈ searchRecipes db fs) : searchSound db fs row :=
  (rowMatches_iff db fs row).mp ((mem_searchRecipes_iff db fs row).mp h).2

/-- Concrete store used to witness the soundness claims: two recipes,
two categories, one allergen association and two diet label
associations. -/
def dbW : Database :=
  { recipe_macro_pct :=
      [{ recipe_id := 1, name := "Grilled Bowl", url := "urlA", calories := 650,
         pct_carbs := 52, pct_fat := 28, pct_protein := 20 },
       { recipe_id := 2, name := "Nut Cake", url := "urlB", calories := 400,
         pct_carbs := 50, pct_fat := 30, pct_protein := 20 }],
    recipes :=
      [{ recipe_id := 1, category_id := some 10, rating := some 4 },
       { recipe_id := 2, category_id := some 11, rating := none }],
    categories :=
      [{ category_id := 10, category_name := "Dinner" },
       { category_id := 11, category_name := "Dessert" }],
    recipe_allergens := [(2, 9)],
    recipe_diet_labels := [(1, 3), (2, 3)] }

/-- Concrete filter used to witness C1: all clause families active. -/
def fsW : FilterState :=
  { cal_min := 100, cal_max := 700, carb_target := 50, fat_target := 30,
    prot_target := 20, margin := 5, category := some "dinner",
    exclude_allergen_ids := [9], diet_label_ids := [3, 4] }

/-- Row returned for dbW and fsW. -/
def rowW : ResultRow :=
  { recipe_id := 1, name := "Grilled Bowl", url := "urlA", calories := 650,
    pct_carbs := 52, pct_fat := 28, pct_protein := 20,
    category_name := some "Dinner", rating := some 4 }

/-- Witness for C1: the membership hypothesis holds on a concrete store
and filter, and the theorem yields the clause list there. -/
theorem searchRecipes_sound_witness :
    rowW ∈ searchRecipes dbW fsW ∧ searchSound dbW fsW rowW :=
  ⟨by with_unfolding_all decide,
   searchRecipes_sound dbW fsW rowW (by with_unfolding_all decide)⟩

/-- Provenance of a joined row: it comes from one view row and one
recipes row with equal recipe ids, through some category match. -/
theorem mem_joinedRows (db : Database) (row : ResultRow) (h : row ∈ joinedRows db) :
    ∃ v ∈ db.recipe_macro_pct, ∃ r ∈ db.recipes, v.recipe_id = r.recipe_id ∧
      ∃ cname ∈ categoryMatches db r,
        row = { recipe_id := v.recipe_id, name := v.name, url := v.url,
                calories := v.calories, pct_carbs := v.pct_carbs,
                pct_fat := v.pct_fat, pct_protein := v.pct_protein,
                category_name := cname, rating := r.rating } := by
  unfold joinedRows at h
  simp only [List.mem_flatMap, List.mem_filter, List.mem_map] at h
  obtain ⟨v, hv, r, ⟨hr, hrid⟩, cname, hcn, heq⟩ := h
  exact ⟨v, hv, r, hr, by simpa using hrid, cname, hcn, heq.symm⟩

/-- Provenance of a category match: NULL, or an actual categories row
joined on category_id. -/
theorem mem_categoryMatches (db : Database) (r : RecipeRow) (cname : Option String)
    (h : cname ∈ categoryMatches db r) :
    cname = none ∨ ∃ c ∈ db.categories,
      r.category_id = some c.category_id ∧ cname = some c.category_name := by
  unfold categoryMatches at h
  cases hf : db.categories.filter (fun c => r.category_id == some c.category_id) with
  | nil =>
    rw [hf] at h
    simp at h
    exact Or.inl h
  | cons c0 cs =>
    rw [hf] at h
    right
    simp only [List.mem_map] at h
    obtain ⟨c, hc, hcn⟩ := h
    have hmem : c ∈ db.categories.filter (fun c => r.category_id == some c.category_id) :=
      hf ▸ hc
    have hmem2 := List.mem_filter.mp hmem
    exact ⟨c, hmem2.1, by simpa using hmem2.2, hcn.symm⟩

/-- C4: for every FilterState, the sequence of rows returned by
search_recipes is sorted ascending by calories, and each returned row
carries the SELECT list fields taken from the joined view row, recipes
row and (nullable) categories row. -/
theorem searchRecipes_sorted (db : Database) (fs : FilterState) :
    List.Sorted calLE (searchRecipes db fs) ∧
    ∀ row ∈ searchRecipes db fs, ∃ v ∈ db.recipe_macro_pct, ∃ r ∈ db.recipes,
      v.recipe_id = r.recipe_id ∧ row.recipe_id = v.recipe_id ∧ row.name = v.name ∧
      row.url = v.url ∧ row.calories = v.calories ∧ row.pct_carbs = v.pct_carbs ∧
      row.pct_fat = v.pct_fat ∧ row.pct_protein = v.pct_protein ∧
      row.rating = r.rating ∧
      (row.category_name = none ∨ ∃ c ∈ db.categories,
        r.category_id = some c.category_id ∧
        row.category_name = some c.category_name) := by
  constructor
  · exact List.sorted_insertionSort calLE _
  · intro row h
    have hj := ((mem_searchRecipes_iff db fs row).mp h).1
    obtain ⟨v, hv, r, hr, hvr, cname, hcn, heq⟩ := mem_joinedRows db row hj
    subst heq
    refine ⟨v, hv, r, hr, hvr, rfl, rfl, rfl, rfl, rfl, rfl, rfl, rfl, ?_⟩
    simpa using mem_categoryMatches db r cname hcn

/-- Store with an out of range macro percentage: the carb window of
fsClamp is 90 to 110, which exceeds 100 and is applied literally. -/
def dbClamp : Database :=
  { recipe_macro_pct :=
      [{ recipe_id := 1, name := "Syrup", url := "u", calories := 300,
         pct_carbs := 105, pct_fat := 0, pct_protein := 0 }],
    recipes := [{ recipe_id := 1, category_id := none, rating := none }],
    categories := [], recipe_allergens := [], recipe_diet_labels := [] }

/-- Filter whose carb window exceeds 100 and whose fat and protein
windows extend below 0. -/
def fsClamp : FilterState :=
  { cal_min := 100, cal_max := 700, carb_target := 100, fat_target := 5,
    prot_target := 5, margin := 10, category := none,
    exclude_allergen_ids := [], diet_label_ids := [] }

/-- Row of dbClamp with pct_carbs equal to 105. -/
def rowClamp : ResultRow :=
  { recipe_id := 1, name := "Syrup", url := "u", calories := 300,
    pct_carbs := 105, pct_fat := 0, pct_protein := 0,
    category_name := none, rating := none }

/-- C5: when cal_min equals cal_max only rows with exactly that calorie
value are returned; when margin equals 0 only rows whose macro
percentages exactly equal the targets are returned; and the windows are
applied literally with no clamping to the 0 to 100 range, witnessed by a
row with pct_carbs 105 returned for a window reaching 110. -/
theorem searchRecipes_boundary (db : Database) (fs : FilterState) (row : ResultRow)
    (h : row ∈ searchRecipes db fs) :
    (fs.cal_min = fs.cal_max → row.calories = fs.cal_min) ∧
    (fs.margin = 0 → row.pct_carbs = fs.carb_target ∧ row.pct_fat = fs.fat_target ∧
      row.pct_protein = fs.prot_target) ∧
    rowClamp ∈ searchRecipes dbClamp fsClamp := by
  have hs := (rowMatches_iff db fs row).mp ((mem_searchRecipes_iff db fs row).mp h).2
  obtain ⟨⟨h1, h2⟩, ⟨c1, c2⟩, ⟨f1, f2⟩, ⟨p1, p2⟩, -⟩ := hs
  refine ⟨?_, ?_, by with_unfolding_all decide⟩
  · intro he
    exact le_antisymm (he ▸ h2) h1
  · intro hm
    rw [hm] at c1 c2 f1 f2 p1 p2
    simp only [sub_zero, add_zero] at c1 c2 f1 f2 p1 p2
    exact ⟨le_antisymm c2 c1, le_antisymm f2 f1, le_antisymm p2 p1⟩

/-- Store and filter for the boundary witness: exact calorie value and
zero margin. -/
def dbB : Database :=
  { recipe_macro_pct :=
      [{ recipe_id := 1, name := "Bowl", url := "u", calories := 650,
         pct_carbs := 52, pct_fat := 28, pct_protein := 20 }],
    recipes := [{ recipe_id := 1, category_id := none, rating := none }],
    categories := [], recipe_allergens := [], recipe_diet_labels := [] }

/-- Boundary filter: cal_min equal to cal_max and margin zero. -/
def fsB : FilterState :=
  { cal_min := 650, cal_max := 650, carb_target := 52, fat_target := 28,
    prot_target := 20, margin := 0, category := none,
    exclude_allergen_ids := [], diet_label_ids := [] }

/-- Row of dbB returned under fsB. -/
def rowB : ResultRow :=
  { recipe_id := 1, name := "Bowl", url := "u", calories := 650,
    pct_carbs := 52, pct_fat := 28, pct_protein := 20,
    category_name := none, rating := none }

/-- Witness for C5 at a concrete store, filter and returned row. -/
theorem searchRecipes_boundary_witness :
    rowB ∈ searchRecipes dbB fsB ∧
    ((fsB.cal_min = fsB.cal_max → rowB.calories = fsB.cal_min) ∧
     (fsB.margin = 0 → rowB.pct_carbs = fsB.carb_target ∧
       rowB.pct_fat = fsB.fat_target ∧ rowB.pct_protein = fsB.prot_target) ∧
     rowClamp ∈ searchRecipes dbClamp fsClamp) :=
  ⟨by with_unfolding_all decide,
   searchRecipes_boundary dbB fsB rowB (by with_unfolding_all decide)⟩

/-- Store for the C6 counterexample: one recipe in category Soup. -/
def db6 : Database :=
  { recipe_macro_pct :=
      [{ recipe_id := 1, name := "Tomato Soup", url := "u", calories := 300,
         pct_carbs := 50, pct_fat := 30, pct_protein := 20 }],
    recipes := [{ recipe_id := 1, category_id := some 1, rating := none }],
    categories := [{ category_id := 1, category_name := "Soup" }],
    recipe_allergens := [], recipe_diet_labels := [] }

/-- Filter selecting the sentinel string with its source spelling. -/
def fs6A : FilterState :=
  { cal_min := 100, cal_max := 700, carb_target := 50, fat_target := 30,
    prot_target := 20, margin := 5, category := some "All Categories",
    exclude_allergen_ids := [], diet_label_ids := [] }

/-- Same filter with the sentinel string in upper case. -/
def fs6B : FilterState :=
  { cal_min := 100, cal_max := 700, carb_target := 50, fat_target := 30,
    prot_target := 20, margin := 5, category := some "ALL CATEGORIES",
    exclude_allergen_ids := [], diet_label_ids := [] }

/-- Counterexample to C6 as stated: the strings All Categories and ALL
CATEGORIES differ only in letter case, yet the two runs differ, because
the sentinel test of line 81 compares exactly and only the first string
disables the category clause. -/
theorem category_case_counterexample :
    lowerStr "All Categories" = lowerStr "ALL CATEGORIES" ∧
    searchRecipes db6 fs6A ≠ searchRecipes db6 fs6B := by
  exact ⟨by decide, by with_unfolding_all decide⟩

/-- Reduction of the sentinel guard on a non-empty non-sentinel string. -/
theorem categorySelected_of (c : String) (h1 : c ≠ "") (h2 : c ≠ "All Categories") :
    categorySelected (some c) = some c := by
  show (if c ≠ "" ∧ c ≠ "All Categories" then some c else none) = some c
  rw [if_pos ⟨h1, h2⟩]

/-- C6 amended: the category filter is case insensitive for every
category string that is non-empty and is not the exact sentinel
All Categories: two runs whose category strings have the same lowercase
form return identical result sets in identical order. -/
theorem searchRecipes_category_case_insensitive (db : Database) (fs : FilterState)
    (c₁ c₂ : String) (hlow : lowerStr c₁ = lowerStr c₂)
    (h1 : c₁ ≠ "") (h2 : c₂ ≠ "")
    (hs1 : c₁ ≠ "All Categories") (hs2 : c₂ ≠ "All Categories") :
    searchRecipes db { fs with category := some c₁ } =
      searchRecipes db { fs with category := some c₂ } := by
  have hp : rowMatches db { fs with category := some c₁ } =
      rowMatches db { fs with category := some c₂ } := by
    funext row
    unfold rowMatches
    have hcat : categoryBool (some c₁) row.category_name =
        categoryBool (some c₂) row.category_name := by
      unfold categoryBool
      rw [categorySelected_of c₁ h1 hs1, categorySelected_of c₂ h2 hs2]
      cases row.category_name with
      | none => rfl
      | some n =>
        show (lowerStr n == lowerStr c₁) = (lowerStr n == lowerStr c₂)
        rw [hlow]
    rw [hcat]
  unfold searchRecipes
  rw [hp]

/-- Witness for the amended C6 on a concrete store and filter pair. -/
theorem searchRecipes_category_case_insensitive_witness :
    lowerStr "Dessert" = lowerStr "dessert" ∧
    searchRecipes dbW { fsW with category := some "Dessert" } =
      searchRecipes dbW { fsW with category := some "dessert" } :=
  ⟨by decide,
   searchRecipes_category_case_insensitive dbW fsW "Dessert" "dessert"
     (by decide) (by decide) (by decide) (by decide) (by decide)⟩

/-- Model of the Python expression of line 70,
  `','.join(map(str, exclude_allergen_ids))`:
the ids rendered in decimal and joined with commas. -/
def commaJoin (ids : List Nat) : String :=
  match ids with
  | [] => ""
  | [a] => toString a
  | a :: rest => toString a ++ "," ++ commaJoin rest

/-- Allergen exclusion clause text, lines 68 to 77: empty for an empty
id list, else the NOT EXISTS subquery with the ids interpolated into the
IN list. -/
def allergenClause (ids : List Nat) : String :=
  if ids.isEmpty then ""
  else "\n            AND NOT EXISTS (\n                SELECT 1 FROM recipe_allergens ra\n                WHERE ra.recipe_id = r.recipe_id\n                AND ra.allergen_id IN (" ++ commaJoin ids ++ ")\n            )\n        "

/-- Category clause text, lines 80 to 82: empty when no category, an
empty string or the sentinel is selected, else the LOWER comparison with
the raw category string interpolated between single quotes. -/
def categoryClause (category : Option String) : String :=
  match category with
  | none => ""
  | some c =>
    if c ≠ "" ∧ c ≠ "All Categories" then
      "AND LOWER(c.category_name) = LOWER(\x27" ++ c ++ "\x27)"
    else ""

/-- Diet label clause text, lines 85 to 94: empty for an empty id list,
else the EXISTS subquery with the ids interpolated into the IN list. -/
def dietClause (ids : List Nat) : String :=
  if ids.isEmpty then ""
  else "\n            AND EXISTS (\n                SELECT 1 FROM recipe_diet_labels rdl\n                WHERE rdl.recipe_id = r.recipe_id\n                AND rdl.label_id IN (" ++ commaJoin ids ++ ")\n            )\n        "

/-- Fixed head of the main query f-string up to and including the four
interpolated range conditions (lines 97 to 114). -/
def mainQueryHead (fs : FilterState) : String :=
  "\n    SELECT \n        v.recipe_id,\n        v.name,\n        v.url,\n        v.calories,\n        v.pct_carbs,\n        v.pct_fat,\n        v.pct_protein,\n        c.category_name,\n        r.rating\n    FROM recipe_macro_pct v\n    JOIN recipes r ON r.recipe_id = v.recipe_id\n    LEFT JOIN categories c ON c.category_id = r.category_id\n    WHERE v.calories BETWEEN " ++
  toString fs.cal_min ++ " AND " ++ toString fs.cal_max ++
  "\n      AND v.pct_carbs BETWEEN " ++ toString (fs.carb_target - fs.margin) ++
  " AND " ++ toString (fs.carb_target + fs.margin) ++
  "\n      AND v.pct_fat BETWEEN " ++ toString (fs.fat_target - fs.margin) ++
  " AND " ++ toString (fs.fat_target + fs.margin) ++
  "\n      AND v.pct_protein BETWEEN " ++ toString (fs.prot_target - fs.margin) ++
  " AND " ++ toString (fs.prot_target + fs.margin)

/-- Whole query text assembled by search_recipes (lines 97 to 119): head,
the three optional clauses on their indented lines, and the ORDER BY
tail. -/
def buildQuery (fs : FilterState) : String :=
  mainQueryHead fs ++ "\n      " ++ categoryClause fs.category ++
    "\n      " ++ allergenClause fs.exclude_allergen_ids ++
    "\n      " ++ dietClause fs.diet_label_ids ++
    "\n    ORDER BY v.calories\n    "

/-- Query text with all three optional clause slots left blank: only the
calorie and macro range conditions are present. -/
def baseQueryText (fs : FilterState) : String :=
  mainQueryHead fs ++ "\n      \n      \n      \n    ORDER BY v.calories\n    "

/-- C2: the claim asserts the query text never incorporates user
supplied values, but the source interpolates every value directly into
the string: the category clause embeds the raw category string between
quotes, and two filter states differing only in the category value
produce different query texts. -/
theorem buildQuery_interpolates_input :
    categoryClause (some "Dessert") =
      "AND LOWER(c.category_name) = LOWER(\x27Dessert\x27)" ∧
    buildQuery { fsW with category := some "Dessert" } ≠
      buildQuery { fsW with category := some "Desserts" } := by
  exact ⟨by decide, by with_unfolding_all decide⟩

/-- Execution wrapper of lines 121 to 126: pd.read_sql is an oracle that
either returns rows or raises; the try block returns the rows, the
except block surfaces the error through st.error and returns the empty
result. The pair is the returned table together with the displayed error
message, none when no error was shown. -/
def searchRecipesRun (exec : String → Except String (List ResultRow))
    (fs : FilterState) : List ResultRow × Option String :=
  match exec (buildQuery fs) with
  | Except.ok df => (df, none)
  | Except.error e => ([], some ("Query failed: " ++ e))

/-- C3: whenever query execution raises, search_recipes catches the
exception locally, surfaces the user visible error text and returns an
empty result set instead of propagating the fault. -/
theorem searchRecipesRun_error (exec : String → Except String (List ResultRow))
    (fs : FilterState) (e : String) (h : exec (buildQuery fs) = Except.error e) :
    searchRecipesRun exec fs = ([], some ("Query failed: " ++ e)) := by
  unfold searchRecipesRun
  rw [h]

/-- Failing execution oracle used by the C3 witness. -/
def execFail : String → Except String (List ResultRow) :=
  fun _ => Except.error "connection lost"

/-- Witness for C3 with a concrete failing oracle and filter. -/
theorem searchRecipesRun_error_witness :
    execFail (buildQuery fsW) = Except.error "connection lost" ∧
    searchRecipesRun execFail fsW = ([], some ("Query failed: " ++ "connection lost")) :=
  ⟨rfl, searchRecipesRun_error execFail fsW "connection lost" rfl⟩

/-- Helper: a concatenation whose left part is non-empty is non-empty. -/
theorem append_ne_empty_left (a b : String) (h : a ≠ "") : a ++ b ≠ "" := by
  intro he
  apply h
  apply String.ext
  have hl := congrArg String.length he
  rw [String.length_append] at hl
  have hz : String.length "" = 0 := rfl
  rw [hz] at hl
  have h0 : a.length = 0 := Nat.eq_zero_of_add_eq_zero_right hl
  exact List.length_eq_zero.mp h0

/-- Helper: Nat.toDigitsCore never empties a non-empty accumulator. -/
theorem toDigitsCore_ne_nil (b : Nat) :
    ∀ (fuel n : Nat) (ds : List Char), ds ≠ [] → Nat.toDigitsCore b fuel n ds ≠ [] := by
  intro fuel
  induction fuel with
  | zero => intro n ds h; simpa [Nat.toDigitsCore] using h
  | succ f ih =>
    intro n ds h
    simp only [Nat.toDigitsCore]
    split
    · exact List.cons_ne_nil _ _
    · exact ih _ _ (List.cons_ne_nil _ _)

/-- Helper: with positive fuel Nat.toDigitsCore returns a non-empty
digit list. -/
theorem toDigitsCore_succ_ne_nil (b fuel n : Nat) (ds : List Char) :
    Nat.toDigitsCore b (fuel + 1) n ds ≠ [] := by
  simp only [Nat.toDigitsCore]
  split
  · exact List.cons_ne_nil _ _
  · exact toDigitsCore_ne_nil b fuel _ _ (List.cons_ne_nil _ _)

/-- Helper: the decimal rendering of a natural number is non-empty. -/
theorem natToString_ne_empty (n : Nat) : toString n ≠ "" := by
  show Nat.repr n ≠ ""
  unfold Nat.repr
  intro h
  have hd := congrArg String.data h
  simp only [List.asString] at hd
  exact toDigitsCore_succ_ne_nil 10 n n [] hd

/-- Helper: the comma-joined id list of a non-empty list is non-empty. -/
theorem commaJoin_ne_empty (ids : List Nat) (h : ids ≠ []) : commaJoin ids ≠ "" := by
  match ids with
  | [] => exact absurd rfl h
  | [a] => exact natToString_ne_empty a
  | a :: b :: rest =>
    show toString a ++ "," ++ commaJoin (b :: rest) ≠ ""
    exact append_ne_empty_left _ _ (append_ne_empty_left _ _ (natToString_ne_empty a))

/-- C10: the allergen and diet clauses are emitted exactly when the
corresponding id list is non-empty; the comma-joined id list
interpolated into the IN list is never the empty string, so a malformed
empty IN list is never constructed; and with both lists empty and no
category selected the query is the base text containing only the
calorie and macro range conditions. -/
theorem clause_emission :
    (∀ ids : List Nat, allergenClause ids = "" ↔ ids = []) ∧
    (∀ ids : List Nat, dietClause ids = "" ↔ ids = []) ∧
    (∀ ids : List Nat, ids ≠ [] → commaJoin ids ≠ "") ∧
    (∀ fs : FilterState, fs.category = none → fs.exclude_allergen_ids = [] →
      fs.diet_label_ids = [] → buildQuery fs = baseQueryText fs) := by
  refine ⟨?_, ?_, commaJoin_ne_empty, ?_⟩
  · intro ids
    cases ids with
    | nil => simp [allergenClause]
    | cons a as =>
      simp only [allergenClause, List.isEmpty_cons, if_false, Bool.false_eq_true]
      constructor
      · intro h
        exact absurd h (append_ne_empty_left _ _ (append_ne_empty_left _ _ (by decide)))
      · intro h
        exact absurd h (List.cons_ne_nil a as)
  · intro ids
    cases ids with
    | nil => simp [dietClause]
    | cons a as =>
      simp only [dietClause, List.isEmpty_cons, if_false, Bool.false_eq_true]
      constructor
      · intro h
        exact absurd h (append_ne_empty_left _ _ (append_ne_empty_left _ _ (by decide)))
      · intro h
        exact absurd h (List.cons_ne_nil a as)
  · intro fs hc ha hd
    unfold buildQuery baseQueryText
    rw [hc, ha, hd]
    rw [show categoryClause none = "" from rfl,
      show allergenClause [] = "" from rfl, show dietClause [] = "" from rfl]
    simp only [String.append_empty, String.append_assoc]
    congr 1

/-- Witness for C10: the inner hypotheses are satisfiable, shown on a
concrete non-empty id list and a concrete clause-free filter. -/
theorem clause_emission_witness :
    commaJoin [2, 7] ≠ "" ∧ allergenClause [] = "" ∧
    buildQuery fsB = baseQueryText fsB :=
  ⟨clause_emission.2.2.1 [2, 7] (by decide),
   (clause_emission.1 []).mpr rfl,
   clause_emission.2.2.2 fsB rfl rfl rfl⟩

/-- Decimal rounding to d places over exact rationals, the model of the
pandas round calls of lines 296 to 300 (ties differ from binary float
rounding only at exact half units, which the claims do not fix). -/
def roundTo (d : ℕ) (x : ℚ) : ℚ := (round (x * (10:ℚ) ^ d) : ℤ) / (10:ℚ) ^ d

/-- Row of the display table after selection and renaming (lines 284 to
293), field order matching the selected column order. -/
structure DisplayRow where
  recipeName : String
  calories : ℚ
  carbs : ℚ
  fat : ℚ
  protein : ℚ
  category : Option String
  rating : Option ℚ
  url : String
deriving DecidableEq, Repr

/-- Page state visible to the presenter: the raw result frame and the
display frame derived from it. -/
structure PageState where
  results_df : List ResultRow
  display_df : List DisplayRow
deriving DecidableEq, Repr

/-- Line 284 to 287: results_df[cols].copy() with the renaming of lines
290 to 293 - a fresh display frame built from the raw rows. -/
def selectCopy (rows : List ResultRow) : List DisplayRow :=
  rows.map fun r =>
    { recipeName := r.name, calories := r.calories, carbs := r.pct_carbs,
      fat := r.pct_fat, protein := r.pct_protein, category := r.category_name,
      rating := r.rating, url := r.url }

/-- Statement of line 284: the display frame becomes the selected copy;
because of the copy, the in place writes below target only display_df. -/
def stepSelectCopy (s : PageState) : PageState :=
  { s with display_df := selectCopy s.results_df }

/-- Line 296: round the Carbs column to 1 decimal in place. -/
def stepRoundCarbs (s : PageState) : PageState :=
  { s with display_df := s.display_df.map fun r => { r with carbs := roundTo 1 r.carbs } }

/-- Line 297: round the Fat column to 1 decimal in place. -/
def stepRoundFat (s : PageState) : PageState :=
  { s with display_df := s.display_df.map fun r => { r with fat := roundTo 1 r.fat } }

/-- Line 298: round the Protein column to 1 decimal in place. -/
def stepRoundProtein (s : PageState) : PageState :=
  { s with display_df := s.display_df.map fun r => { r with protein := roundTo 1 r.protein } }

/-- Line 299: round Calories to 0 decimals and cast to integer values. -/
def stepRoundCalories (s : PageState) : PageState :=
  { s with display_df := s.display_df.map fun r => { r with calories := roundTo 0 r.calories } }

/-- Line 300: round the nullable Rating column to 2 decimals in place. -/
def stepRoundRating (s : PageState) : PageState :=
  { s with display_df := s.display_df.map fun r => { r with rating := r.rating.map (roundTo 2) } }

/-- The presenter pipeline of lines 284 to 300 in source order. -/
def presentResults (s : PageState) : PageState :=
  stepRoundRating (stepRoundCalories (stepRoundProtein (stepRoundFat
    (stepRoundCarbs (stepSelectCopy s)))))

/-- Display projection of one raw row after all rounding steps. -/
def displayOf (r : ResultRow) : DisplayRow :=
  { recipeName := r.name, calories := roundTo 0 r.calories,
    carbs := roundTo 1 r.pct_carbs, fat := roundTo 1 r.pct_fat,
    protein := roundTo 1 r.pct_protein, category := r.category_name,
    rating := r.rating.map (roundTo 2), url := r.url }

/-- The presenter produces exactly the per row display projection. -/
theorem presentResults_display (s : PageState) :
    (presentResults s).display_df = s.results_df.map displayOf := by
  unfold presentResults stepRoundRating stepRoundCalories stepRoundProtein
    stepRoundFat stepRoundCarbs stepSelectCopy selectCopy
  simp only [List.map_map]
  rfl

/-- C8: running the presenter leaves the underlying raw result frame
unchanged - the column writes of lines 296 to 300 act on the copy made
at line 287, never on results_df, so every field of every raw row is
identical before and after. -/
theorem presentResults_frame (s : PageState) :
    (presentResults s).results_df = s.results_df := rfl

/-- Multiplying a rounded value by its scale recovers an integer. -/
theorem roundTo_den_mul (d : ℕ) (x : ℚ) :
    roundTo d x * (10:ℚ) ^ d = ((round (x * (10:ℚ) ^ d) : ℤ) : ℚ) := by
  unfold roundTo
  rw [div_mul_cancel₀]
  exact pow_ne_zero d (by norm_num)

/-- The scaled rounded value has denominator one. -/
theorem roundTo_isInt (d : ℕ) (x : ℚ) : (roundTo d x * (10:ℚ) ^ d).den = 1 := by
  rw [roundTo_den_mul]
  exact Rat.den_intCast _

/-- The rounded value is within half a unit in the last place. -/
theorem roundTo_close (d : ℕ) (x : ℚ) :
    |roundTo d x - x| ≤ 1 / (2 * (10:ℚ) ^ d) := by
  have h10 : (0:ℚ) < (10:ℚ) ^ d := by positivity
  have hrw : roundTo d x - x =
      (((round (x * (10:ℚ) ^ d) : ℤ) : ℚ) - x * (10:ℚ) ^ d) / (10:ℚ) ^ d := by
    unfold roundTo
    field_simp
    ring
  rw [hrw, abs_div, abs_of_pos h10]
  have hb := abs_sub_round (x * (10:ℚ) ^ d)
  rw [abs_sub_comm] at hb
  calc |((round (x * (10:ℚ) ^ d) : ℤ) : ℚ) - x * (10:ℚ) ^ d| / (10:ℚ) ^ d
      ≤ (1 / 2) / (10:ℚ) ^ d := by gcongr
    _ = 1 / (2 * (10:ℚ) ^ d) := by ring

/-- C7: for every raw result row, the display projection produced by the
presenter rounds calories to an integer (within half a unit), rounds
each macro percentage to 1 decimal place (a multiple of one tenth,
within one twentieth), and rounds a present rating to 2 decimal places
(a multiple of one hundredth, within one two hundredth), keeping an
absent rating absent. -/
theorem display_rounding (s : PageState) (r : ResultRow) (h : r ∈ s.results_df) :
    ∃ d ∈ (presentResults s).display_df,
      (d.calories.den = 1 ∧ |d.calories - r.calories| ≤ 1 / 2) ∧
      ((d.carbs * 10).den = 1 ∧ |d.carbs - r.pct_carbs| ≤ 1 / 20) ∧
      ((d.fat * 10).den = 1 ∧ |d.fat - r.pct_fat| ≤ 1 / 20) ∧
      ((d.protein * 10).den = 1 ∧ |d.protein - r.pct_protein| ≤ 1 / 20) ∧
      (r.rating = none → d.rating = none) ∧
      (∀ q, r.rating = some q → ∃ q2, d.rating = some q2 ∧
        (q2 * 100).den = 1 ∧ |q2 - q| ≤ 1 / 200) := by
  refine ⟨displayOf r, ?_, ⟨?_, ?_⟩, ⟨?_, ?_⟩, ⟨?_, ?_⟩, ⟨?_, ?_⟩, ?_, ?_⟩
  · rw [presentResults_display]
    exact List.mem_map_of_mem displayOf h
  · have := roundTo_isInt 0 r.calories
    simpa using this
  · exact le_trans (roundTo_close 0 r.calories) (by norm_num)
  · have := roundTo_isInt 1 r.pct_carbs
    simpa using this
  · exact le_trans (roundTo_close 1 r.pct_carbs) (by norm_num)
  · have := roundTo_isInt 1 r.pct_fat
    simpa using this
  · exact le_trans (roundTo_close 1 r.pct_fat) (by norm_num)
  · have := roundTo_isInt 1 r.pct_protein
    simpa using this
  · exact le_trans (roundTo_close 1 r.pct_protein) (by norm_num)
  · intro hn
    show r.rating.map (roundTo 2) = none
    rw [hn]
    rfl
  · intro q hq
    refine ⟨roundTo 2 q, ?_, ?_, ?_⟩
    · show r.rating.map (roundTo 2) = some (roundTo 2 q)
      rw [hq]
      rfl
    · have := roundTo_isInt 2 q
      simpa [show ((10:ℚ) ^ (2:ℕ)) = 100 by norm_num] using this
    · exact le_trans (roundTo_close 2 q) (by norm_num)

/-- Page state for the C7 witness: the raw frame holds one row. -/
def pageW : PageState := { results_df := [rowW], display_df := [] }

/-- Witness for C7 on a concrete page state and raw row. -/
theorem display_rounding_witness :
    rowW ∈ pageW.results_df ∧
    (∃ d ∈ (presentResults pageW).display_df,
      (d.calories.den = 1 ∧ |d.calories - rowW.calories| ≤ 1 / 2) ∧
      ((d.carbs * 10).den = 1 ∧ |d.carbs - rowW.pct_carbs| ≤ 1 / 20) ∧
      ((d.fat * 10).den = 1 ∧ |d.fat - rowW.pct_fat| ≤ 1 / 20) ∧
      ((d.protein * 10).den = 1 ∧ |d.protein - rowW.pct_protein| ≤ 1 / 20) ∧
      (rowW.rating = none → d.rating = none) ∧
      (∀ q, rowW.rating = some q → ∃ q2, d.rating = some q2 ∧
        (q2 * 100).den = 1 ∧ |q2 - q| ≤ 1 / 200)) :=
  ⟨by decide, display_rounding pageW rowW (by decide)⟩

/-- CSV field encoding with minimal quoting, the model of the pandas
to_csv cell rules: quote when the text holds a delimiter, quote or line
break, doubling inner quotes. -/
def csvField (s : String) : String :=
  if s.data.contains ',' || s.data.contains '\"' || s.data.contains '\n'
      || s.data.contains '\r' then
    "\"" ++ String.mk (s.data.flatMap fun c => if c = '\"' then ['\"', '\"'] else [c]) ++ "\""
  else s

/-- Rendering of a nullable string cell: NULL becomes the empty cell. -/
def renderOptStr : Option String → String
  | none => ""
  | some s => s

/-- Rendering of a nullable numeric cell: NaN becomes the empty cell. -/
def renderOptQ : Option ℚ → String
  | none => ""
  | some q => toString q

/-- One data line of the export, cells in display column order. -/
def renderDisplayRow (r : DisplayRow) : String :=
  csvField r.recipeName ++ "," ++ toString r.calories ++ "," ++
  toString r.carbs ++ "," ++ toString r.fat ++ "," ++ toString r.protein ++ "," ++
  csvField (renderOptStr r.category) ++ "," ++ renderOptQ r.rating ++ "," ++
  csvField r.url

/-- Display column names assigned at lines 290 to 293. -/
def displayColumns : List String :=
  ["Recipe Name", "Calories", "Carbs %", "Fat %", "Protein %",
   "Category", "Rating", "URL"]

/-- Comma join of rendered cells. -/
def joinComma : List String → String
  | [] => ""
  | [a] => a
  | a :: rest => a ++ "," ++ joinComma rest

/-- Model of display_df.to_csv(index=False) at line 320: the header line
from the renamed columns, then one line per displayed record. -/
def exportCsv (rows : List DisplayRow) : String :=
  joinComma (displayColumns.map csvField) ++ "\n" ++
    String.join (rows.map fun r => renderDisplayRow r ++ "\n")

/-- Download file name of line 324,
  `recipe_results_{cal_min}-{cal_max}cal.csv`. -/
def exportFilename (cmin cmax : ℚ) : String :=
  "recipe_results_" ++ toString cmin ++ "-" ++ toString cmax ++ "cal.csv"

/-- Display row used for the C9 counterexample and witness. -/
def dRow : DisplayRow :=
  { recipeName := "A", calories := 650, carbs := 52, fat := 28,
    protein := 20, category := some "Dinner", rating := some 4, url := "u" }

/-- Counterexample to C9 as stated: on a concrete non-empty result the
export does not carry the header spelled with spaces after the commas
that the claim quotes; the actual header joins the column names with
bare commas. -/
theorem export_header_counterexample :
    exportCsv [dRow] ≠
      "Recipe Name, Calories, Carbs %, Fat %, Protein %, Category, Rating, URL" ++
        "\n" ++ String.join ([dRow].map fun r => renderDisplayRow r ++ "\n") ∧
    joinComma (displayColumns.map csvField) =
      "Recipe Name,Calories,Carbs %,Fat %,Protein %,Category,Rating,URL" := by
  exact ⟨by decide, by decide⟩

/-- C9 amended: for every non-empty result, the CSV export is exactly
the header line Recipe Name,Calories,Carbs %,Fat %,Protein %,Category,
Rating,URL (column names joined by bare commas, no space after the
comma) followed by one line per displayed record, and the download file
name substitutes the current calorie bounds into the pattern
recipe_results_(cal_min)-(cal_max)cal.csv, shown at bounds 100 and
700. -/
theorem exportCsv_format (rows : List DisplayRow) (_h : rows ≠ []) :
    exportCsv rows =
      "Recipe Name,Calories,Carbs %,Fat %,Protein %,Category,Rating,URL" ++
        "\n" ++ String.join (rows.map fun r => renderDisplayRow r ++ "\n") ∧
    (rows.map fun r => renderDisplayRow r ++ "\n").length = rows.length ∧
    exportFilename 100 700 = "recipe_results_100-700cal.csv" := by
  refine ⟨?_, List.length_map _ _, by decide⟩
  show joinComma (displayColumns.map csvField) ++ "\n" ++ _ = _
  rw [show joinComma (displayColumns.map csvField) =
    "Recipe Name,Calories,Carbs %,Fat %,Protein %,Category,Rating,URL" from by decide]

/-- Witness for the amended C9 on a concrete one row display table. -/
theorem exportCsv_format_witness :
    [dRow] ≠ ([] : List DisplayRow) ∧
    (exportCsv [dRow] =
      "Recipe Name,Calories,Carbs %,Fat %,Protein %,Category,Rating,URL" ++
        "\n" ++ String.join ([dRow].map fun r => renderDisplayRow r ++ "\n") ∧
    ([dRow].map fun r => renderDisplayRow r ++ "\n").length = [dRow].length ∧
    exportFilename 100 700 = "recipe_results_100-700cal.csv") :=
  ⟨by decide, exportCsv_format [dRow] (by decide)⟩

end RecipeApp
